import Mathlib

/-!
Verification of the Casmurbot Telegram bot (src/bot.js).

The development shallowly embeds the bot's moderation pipeline
(`isMe`, `isAdmin`, `canRestrict`, `restrictUser`, `applyAction`,
`handleKickBanUnban`) as trace-producing functions over an explicit
transport environment, and the two link-rewrite handlers
(`bot.hears(regexTwitter)`, `bot.hears(regexReddit)`) as character-list
scanners mirroring the regular expressions of bot.js.
-/

namespace Casmurbot

/-- Chat membership record returned by the transport's `getChatMember`
(the two fields the bot reads: `status` and `can_restrict_members`). -/
structure ChatMember where
  status : String
  can_restrict_members : Bool
deriving Repr, DecidableEq

/-- Transport-visible effects of one handler invocation, in order of
occurrence: outgoing replies, membership queries, the two membership
mutations, and the `console.error` log in the catch block. -/
inductive Event where
  | reply (text : String)
  | getChatMember (uid : Nat)
  | banChatMember (uid : Nat)
  | unbanChatMember (uid : Nat)
  | logError
deriving Repr, DecidableEq

/-- The request-scoped context fields the moderation pipeline reads:
`ctx.from.id`, `ctx.me.id`, and `ctx.message.reply_to_message.from.id`
(`none` when the message is not a reply; the code paths modelled here
access `.from.id` directly whenever the reply exists). -/
structure Ctx where
  fromId : Nat
  meId : Nat
  replyToFromId : Option Nat

/-- The transport: membership queries and the outcomes of the two
mutation calls, each keyed by user id.  `Except.error ()` models a
thrown network/API error at that call. -/
structure Env where
  getChatMember : Nat → Except Unit ChatMember
  banChatMember : Nat → Except Unit Unit
  unbanChatMember : Nat → Except Unit Unit

/-- bot.js:38-40: the message is a reply and the replied-to message's
author is the bot itself. -/
def isMe (ctx : Ctx) : Bool :=
  match ctx.replyToFromId with
  | some uid => uid == ctx.meId
  | none => false

/-- bot.js:47-50: fetch the invoker's membership and test
`status === "administrator" || status === "creator"`.  The trace
records the query; a transport error propagates. -/
def isAdmin (env : Env) (ctx : Ctx) : List Event × Except Unit Bool :=
  ([Event.getChatMember ctx.fromId],
    (env.getChatMember ctx.fromId).map (fun user =>
      user.status == "administrator" || user.status == "creator"))

/-- bot.js:57-60: fetch the bot's own membership and read
`can_restrict_members`. -/
def canRestrict (env : Env) (ctx : Ctx) : List Event × Except Unit Bool :=
  ([Event.getChatMember ctx.meId],
    (env.getChatMember ctx.meId).map (fun botMember =>
      botMember.can_restrict_members))

/-- bot.js:68-84 (`restrictUser`): self-target check, admin check,
capability check, target resolution (`!targetUser` is JS-falsy, so a
zero id terminates silently), then the action inside try/catch; a
failure of the action is logged and answered with the generic error
reply.  Errors thrown by the two queries propagate. -/
def restrictUser (env : Env) (ctx : Ctx)
    (action : Nat → List Event × Except Unit Unit) :
    List Event × Except Unit Unit :=
  if isMe ctx then ([Event.reply "I can\x27t restrict myself"], Except.ok ())
  else
    match isAdmin env ctx with
    | (t1, Except.error e) => (t1, Except.error e)
    | (t1, Except.ok adm) =>
      if !adm then
        (t1 ++ [Event.reply "You are not an administrator"], Except.ok ())
      else
        match canRestrict env ctx with
        | (t2, Except.error e) => (t1 ++ t2, Except.error e)
        | (t2, Except.ok can) =>
          if !can then
            (t1 ++ t2 ++ [Event.reply "I can\x27t restrict members"], Except.ok ())
          else
            match ctx.replyToFromId with
            | none => (t1 ++ t2, Except.ok ())
            | some targetUser =>
              if targetUser == 0 then (t1 ++ t2, Except.ok ())
              else
                match action targetUser with
                | (t3, Except.ok _) => (t1 ++ t2 ++ t3, Except.ok ())
                | (t3, Except.error _) =>
                  (t1 ++ t2 ++ t3 ++ [Event.logError,
                    Event.reply "An error occurred while trying to restrict the user"],
                    Except.ok ())

/-- bot.js:94-100 (`applyAction`): `kick` and `ban` issue
`banChatMember`; `kick` and `unban` then issue `unbanChatMember`.  A
throw at the first await skips the second. -/
def applyAction (env : Env) (action : String) (targetUser : Nat) :
    List Event × Except Unit Unit :=
  let step1 : List Event × Except Unit Unit :=
    if action == "kick" || action == "ban" then
      ([Event.banChatMember targetUser], env.banChatMember targetUser)
    else ([], Except.ok ())
  match step1 with
  | (t1, Except.error e) => (t1, Except.error e)
  | (t1, Except.ok _) =>
    if action == "kick" || action == "unban" then
      (t1 ++ [Event.unbanChatMember targetUser], env.unbanChatMember targetUser)
    else (t1, Except.ok ())

/-- bot.js:108-117 (`handleKickBanUnban`): with a reply present, run
`restrictUser` with a closure applying the action to the replied-to
author (the closure ignores the target passed back to it, as in the
source); without a reply, send the usage hint. -/
def handleKickBanUnban (env : Env) (ctx : Ctx) (action : String) :
    List Event × Except Unit Unit :=
  match ctx.replyToFromId with
  | some repliedUser =>
    restrictUser env ctx (fun _ => applyAction env action repliedUser)
  | none =>
    ([Event.reply ("You need to reply to a message to " ++ action ++ " a user")],
      Except.ok ())

/-- Is the event a membership mutation (`banChatMember`/`unbanChatMember`)? -/
def Event.isMutation : Event → Bool
  | Event.banChatMember _ => true
  | Event.unbanChatMember _ => true
  | _ => false

/-- Is the event an outgoing reply? -/
def Event.isReply : Event → Bool
  | Event.reply _ => true
  | _ => false

/-- Is the event a membership query? -/
def Event.isQuery : Event → Bool
  | Event.getChatMember _ => true
  | _ => false

/-- The membership-mutation calls of a trace, in order. -/
def mutationEvents (tr : List Event) : List Event := tr.filter Event.isMutation

/-- The outgoing replies of a trace, in order. -/
def replyEvents (tr : List Event) : List Event := tr.filter Event.isReply

/-- The membership queries of a trace, in order. -/
def queryEvents (tr : List Event) : List Event := tr.filter Event.isQuery

/-! ## Link normalizer: character-level scanners for the two regexes

`regexTwitter` (bot.js:30) is
`https?:\/\/(?:www\.)?(?:twitter\.com|x\.com)\/\w+\/status\/(\d+)` and
`regexReddit` (bot.js:31) is
`https?:\/\/(?:www\.)?reddit\.com\/r\/\w+\/(?:comments|s)\/(\w+)(?:\/\w+)?\/?`.
Both are matched non-globally: the JS engine returns the leftmost match.
The scanners below follow the regexes literally.  Each optional group or
alternation here is resolved by a local first-branch-wins choice; this
equals the engine's backtracking because in every choice the branches
are distinguished by their first character (s vs :, w vs t/x/r, c vs s),
so at most one branch can start a match, and the greedy `\w+`/`\d+`
pieces are followed by characters (`/`, end of pattern) that the classes
cannot match, so maximal munch is exact. -/

/-- JS `\w` without the `u` flag: `[A-Za-z0-9_]`. -/
def isWordChar (c : Char) : Bool :=
  (('a' ≤ c && c ≤ 'z') || ('A' ≤ c && c ≤ 'Z') || ('0' ≤ c && c ≤ '9') || c == '_')

/-- JS `\d`: `[0-9]`. -/
def isDigitChar (c : Char) : Bool := '0' ≤ c && c ≤ '9'

/-- Strip a literal pattern from the front of the text, or fail. -/
def stripL : List Char → List Char → Option (List Char)
  | [], cs => some cs
  | _ :: _, [] => none
  | p :: ps, c :: cs => if c == p then stripL ps cs else none

/-- `s?://` after the literal `http`, with the regex's backtracking over
the optional `s`. -/
def matchAfterHttp (cs : List Char) : Option (List Char) :=
  match stripL ('s' :: "://".data) cs with
  | some r => some r
  | none => stripL ("://".data) cs

/-- `(?:twitter\.com|x\.com)`. -/
def matchTwitterHost (cs : List Char) : Option (List Char) :=
  match stripL ("twitter.com".data) cs with
  | some r => some r
  | none => stripL ("x.com".data) cs

/-- `(?:www\.)?` before the Twitter host alternation. -/
def matchWwwTwitterHost (cs : List Char) : Option (List Char) :=
  match stripL ("www.".data) cs with
  | some r =>
    match matchTwitterHost r with
    | some r2 => some r2
    | none => matchTwitterHost cs
  | none => matchTwitterHost cs

/-- `\/(\w+)\/status\/(\d+)` after the host: the handle (captured by the
inline extraction regex of bot.js:202) and the id.  The greedy `\w+`
and `\d+` are the maximal `takeWhile` runs. -/
def matchTwitterTail (cs : List Char) : Option (String × String) :=
  match cs with
  | '/' :: cs1 =>
    let w := cs1.takeWhile isWordChar
    if w.isEmpty then none
    else
      match stripL ("/status/".data) (cs1.dropWhile isWordChar) with
      | none => none
      | some cs3 =>
        let ds := cs3.takeWhile isDigitChar
        if ds.isEmpty then none else some (String.mk w, String.mk ds)
  | _ => none

/-- A match of `regexTwitter` starting at the head of the text. -/
def matchTwitterAt (cs : List Char) : Option (String × String) :=
  match stripL ("http".data) cs with
  | none => none
  | some cs1 =>
    match matchAfterHttp cs1 with
    | none => none
    | some cs2 =>
      match matchWwwTwitterHost cs2 with
      | none => none
      | some cs3 => matchTwitterTail cs3

/-- The leftmost match of `regexTwitter`, as the JS engine finds it. -/
def findTwitter : List Char → Option (String × String)
  | [] => none
  | c :: cs =>
    match matchTwitterAt (c :: cs) with
    | some r => some r
    | none => findTwitter cs

/-- A match of `\/status\/(\d+)` (the id-extraction regex of
bot.js:203) starting at the head of the text. -/
def matchStatusIdAt (cs : List Char) : Option String :=
  match stripL ("/status/".data) cs with
  | none => none
  | some r =>
    let ds := r.takeWhile isDigitChar
    if ds.isEmpty then none else some (String.mk ds)

/-- The leftmost match of `\/status\/(\d+)` anywhere in the text. -/
def findStatusId : List Char → Option String
  | [] => none
  | c :: cs =>
    match matchStatusIdAt (c :: cs) with
    | some r => some r
    | none => findStatusId cs

/-- bot.js:199-207, the `bot.hears(regexTwitter)` handler reduced to the
URL it builds: when the regex matches, the handle is re-extracted by the
inline URL regex (bot.js:202, same pattern, leftmost match) and the id by
a separate `\/status\/(\d+)` scan of the whole text (bot.js:203); the
reply wraps this URL as `From @username:\n` + URL. -/
def twitterHandler (text : String) : Option String :=
  match findTwitter text.data, findStatusId text.data with
  | some (tweetUser, _), some tweetId =>
    some ("https://fxtwitter.com/" ++ tweetUser ++ "/status/" ++ tweetId)
  | _, _ => none

/-- A match of `regexReddit` starting at the head of the text.  The
trailing optional groups `(?:\/\w+)?\/?` always succeed, so they do not
affect whether a match exists. -/
def matchRedditAt (cs : List Char) : Bool :=
  match stripL ("http".data) cs with
  | none => false
  | some cs1 =>
    match matchAfterHttp cs1 with
    | none => false
    | some cs2 =>
      let afterHost :=
        match stripL ("www.".data) cs2 with
        | some r =>
          match stripL ("reddit.com/r/".data) r with
          | some r2 => some r2
          | none => stripL ("reddit.com/r/".data) cs2
        | none => stripL ("reddit.com/r/".data) cs2
      match afterHost with
      | none => false
      | some cs3 =>
        if (cs3.takeWhile isWordChar).isEmpty then false
        else
          match cs3.dropWhile isWordChar with
          | '/' :: cs5 =>
            let afterKind :=
              match stripL ("comments".data) cs5 with
              | some r => some r
              | none => stripL ['s'] cs5
            match afterKind with
            | none => false
            | some cs6 =>
              match cs6 with
              | '/' :: cs7 => !(cs7.takeWhile isWordChar).isEmpty
              | _ => false
          | _ => false

/-- Does `regexReddit` match anywhere in the text (the `bot.hears`
gate)? -/
def findReddit : List Char → Bool
  | [] => false
  | c :: cs => matchRedditAt (c :: cs) || findReddit cs

/-- `url.split("?")[0]` of bot.js:215: the text before the first
question mark. -/
def splitQHead (cs : List Char) : List Char :=
  cs.takeWhile (fun c => !(c == '?'))

/-- JS `String.replace("reddit.com", "rxddit.com")`: replace the first
occurrence only, scanning left to right (bot.js:216). -/
def replaceRedditFirst : List Char → List Char
  | [] => []
  | c :: cs =>
    match stripL ("reddit.com".data) (c :: cs) with
    | some r => "rxddit.com".data ++ r
    | none => c :: replaceRedditFirst cs

/-- bot.js:216, `cleanedRedditUrl`: the whole message text up to the
first `?`, with the first `reddit.com` occurrence replaced. -/
def cleanedRedditUrl (text : String) : String :=
  String.mk (replaceRedditFirst (splitQHead text.data))

/-- bot.js:213-218, the `bot.hears(regexReddit)` handler: when the regex
matches the message text, reply with the sender tag and the cleaned
URL. -/
def redditHandler (text username : String) : Option String :=
  if findReddit text.data then
    some ("From @" ++ username ++ ":\n" ++ cleanedRedditUrl text)
  else none

/-! ## Concrete transports and contexts used by witnesses -/

/-- An administrator record whose bot capability flag is set. -/
def adminMember : ChatMember := ⟨"administrator", true⟩

/-- An ordinary member record. -/
def plainMember : ChatMember := ⟨"member", false⟩

/-- A bot membership record lacking `can_restrict_members`. -/
def botNoRestrict : ChatMember := ⟨"administrator", false⟩

/-- Transport where every lookup returns an administrator with restrict
capability and both mutations succeed. -/
def envOk : Env :=
  ⟨fun _ => Except.ok adminMember, fun _ => Except.ok (), fun _ => Except.ok ()⟩

/-- Transport where the invoker (id 1) is an ordinary member. -/
def envNonAdmin : Env :=
  ⟨fun uid => if uid == 1 then Except.ok plainMember else Except.ok adminMember,
    fun _ => Except.ok (), fun _ => Except.ok ()⟩

/-- Transport where the invoker (id 1) is an administrator but the bot
record lacks the restrict capability. -/
def envNoCap : Env :=
  ⟨fun uid => if uid == 1 then Except.ok adminMember else Except.ok botNoRestrict,
    fun _ => Except.ok (), fun _ => Except.ok ()⟩

/-- Transport where lookups succeed (administrator, capable bot) but the
`banChatMember` call throws. -/
def envBanFails : Env :=
  ⟨fun _ => Except.ok adminMember, fun _ => Except.error (), fun _ => Except.ok ()⟩

/-- Transport where every membership lookup throws. -/
def envQFail : Env :=
  ⟨fun _ => Except.error (), fun _ => Except.ok (), fun _ => Except.ok ()⟩

/-- Invoker 1, bot 2, command issued as a reply to a message from
user 3. -/
def ctxReply3 : Ctx := ⟨1, 2, some 3⟩

/-- A decidable sufficient condition for a block of text to contain no
start of a `\/status\/(\d+)` match even when followed by arbitrary
text: every slash is followed, inside the block, by a character other
than `s` (so the pattern fails within the block's own characters). -/
def bodySafe : List Char → Bool
  | [] => true
  | c :: cs =>
    if c == '/' then
      match cs with
      | [] => false
      | c2 :: _ => !(c2 == 's') && bodySafe cs
    else bodySafe cs

/-! ## Moderation pipeline claims -/

/-- C2: a `ban` command issued as a reply to another user's message by
an invoker whose membership status is neither "administrator" nor
"creator" produces exactly one membership query, the admin-denial reply
(the code's text is "You are not an administrator", which the spec
paraphrases as "not an administrator"), and zero membership-mutation
calls. -/
theorem C2_nonadmin_ban_denied (env : Env) (ctx : Ctx) (t : Nat) (u : ChatMember)
    (hreply : ctx.replyToFromId = some t) (hne : t ≠ ctx.meId)
    (hq : env.getChatMember ctx.fromId = Except.ok u)
    (hs1 : u.status ≠ "administrator") (hs2 : u.status ≠ "creator") :
    handleKickBanUnban env ctx "ban" =
      ([Event.getChatMember ctx.fromId, Event.reply "You are not an administrator"],
        Except.ok ())
    ∧ mutationEvents (handleKickBanUnban env ctx "ban").1 = [] := by
  have hme : (t == ctx.meId) = false := beq_eq_false_iff_ne.mpr hne
  have hb1 : (u.status == "administrator") = false := beq_eq_false_iff_ne.mpr hs1
  have hb2 : (u.status == "creator") = false := beq_eq_false_iff_ne.mpr hs2
  constructor <;>
    simp [handleKickBanUnban, restrictUser, isAdmin, isMe, hreply, hme, hq,
      Except.map, hb1, hb2, mutationEvents, Event.isMutation]

/-- Witness for C2 at the ordinary-member transport. -/
theorem C2_witness :
    handleKickBanUnban envNonAdmin ctxReply3 "ban" =
      ([Event.getChatMember 1, Event.reply "You are not an administrator"],
        Except.ok ())
    ∧ mutationEvents (handleKickBanUnban envNonAdmin ctxReply3 "ban").1 = [] :=
  C2_nonadmin_ban_denied envNonAdmin ctxReply3 3 plainMember rfl (by decide) rfl
    (by decide) (by decide)

/-- C3: a `kick` command issued as a reply to another user's message by
an administrator or creator, when the bot's membership record lacks
`can_restrict_members`, produces the two membership queries, the
capability-denial reply (the code's text is "I can't restrict members",
which the spec paraphrases as "cannot restrict members"), and zero
membership-mutation calls. -/
theorem C3_no_capability_denied (env : Env) (ctx : Ctx) (t : Nat) (u b : ChatMember)
    (hreply : ctx.replyToFromId = some t) (hne : t ≠ ctx.meId)
    (hq : env.getChatMember ctx.fromId = Except.ok u)
    (hst : u.status = "administrator" ∨ u.status = "creator")
    (hbot : env.getChatMember ctx.meId = Except.ok b)
    (hcap : b.can_restrict_members = false) :
    handleKickBanUnban env ctx "kick" =
      ([Event.getChatMember ctx.fromId, Event.getChatMember ctx.meId,
        Event.reply "I can\x27t restrict members"], Except.ok ())
    ∧ mutationEvents (handleKickBanUnban env ctx "kick").1 = [] := by
  have hme : (t == ctx.meId) = false := beq_eq_false_iff_ne.mpr hne
  have hadm : (u.status == "administrator" || u.status == "creator") = true := by
    rcases hst with h | h <;> simp [h]
  constructor <;>
    simp [handleKickBanUnban, restrictUser, isAdmin, canRestrict, isMe, hreply,
      hme, hq, hbot, Except.map, hadm, hcap, mutationEvents, Event.isMutation]

/-- Witness for C3 at the capability-lacking transport. -/
theorem C3_witness :
    handleKickBanUnban envNoCap ctxReply3 "kick" =
      ([Event.getChatMember 1, Event.getChatMember 2,
        Event.reply "I can\x27t restrict members"], Except.ok ())
    ∧ mutationEvents (handleKickBanUnban envNoCap ctxReply3 "kick").1 = [] :=
  C3_no_capability_denied envNoCap ctxReply3 3 adminMember botNoRestrict rfl
    (by decide) rfl (Or.inl rfl) rfl rfl

/-- C4: any moderation command (`kick`, `ban` or `unban`) issued as a
reply to a message authored by the bot itself produces only the
self-denial reply (the code's text is "I can't restrict myself", which
the spec paraphrases as "cannot restrict myself") and zero membership
queries and mutations — for every transport, hence regardless of the
invoker's admin status. -/
theorem C4_self_target_denied (env : Env) (ctx : Ctx) (action : String)
    (_haction : action ∈ ["kick", "ban", "unban"])
    (hreply : ctx.replyToFromId = some ctx.meId) :
    handleKickBanUnban env ctx action =
      ([Event.reply "I can\x27t restrict myself"], Except.ok ())
    ∧ mutationEvents (handleKickBanUnban env ctx action).1 = []
    ∧ queryEvents (handleKickBanUnban env ctx action).1 = [] := by
  refine ⟨?_, ?_, ?_⟩ <;>
    simp [handleKickBanUnban, restrictUser, isMe, hreply, mutationEvents,
      queryEvents, Event.isMutation, Event.isQuery]

/-- Witness for C4: an admin invoker kicking by replying to the bot. -/
theorem C4_witness :
    handleKickBanUnban envOk ⟨1, 2, some 2⟩ "kick" =
      ([Event.reply "I can\x27t restrict myself"], Except.ok ())
    ∧ mutationEvents (handleKickBanUnban envOk ⟨1, 2, some 2⟩ "kick").1 = []
    ∧ queryEvents (handleKickBanUnban envOk ⟨1, 2, some 2⟩ "kick").1 = [] :=
  C4_self_target_denied envOk ⟨1, 2, some 2⟩ "kick" (by decide) rfl

/-- C5: a moderation command not issued as a reply produces only the
usage-hint reply ("You need to reply to a message to ⟨action⟩ a user")
and terminates successfully, with zero membership queries and zero
mutation calls — the no-reply check runs before any admin or capability
check, so the hint appears for every transport. -/
theorem C5_no_reply_usage_hint (env : Env) (ctx : Ctx) (action : String)
    (_haction : action ∈ ["kick", "ban", "unban"])
    (hreply : ctx.replyToFromId = none) :
    handleKickBanUnban env ctx action =
      ([Event.reply ("You need to reply to a message to " ++ action ++ " a user")],
        Except.ok ())
    ∧ mutationEvents (handleKickBanUnban env ctx action).1 = []
    ∧ queryEvents (handleKickBanUnban env ctx action).1 = [] := by
  refine ⟨?_, ?_, ?_⟩ <;>
    simp [handleKickBanUnban, hreply, mutationEvents, queryEvents,
      Event.isMutation, Event.isQuery]

/-- Witness for C5: `unban` with no replied-to message. -/
theorem C5_witness :
    handleKickBanUnban envOk ⟨1, 2, none⟩ "unban" =
      ([Event.reply ("You need to reply to a message to " ++ "unban" ++ " a user")],
        Except.ok ())
    ∧ mutationEvents (handleKickBanUnban envOk ⟨1, 2, none⟩ "unban").1 = []
    ∧ queryEvents (handleKickBanUnban envOk ⟨1, 2, none⟩ "unban").1 = [] :=
  C5_no_reply_usage_hint envOk ⟨1, 2, none⟩ "unban" (by decide) rfl

/-- C6: in every invocation of the pipeline, if any membership-mutation
call occurs then the trace of that same invocation begins with the
fresh membership lookup for the invoking user followed by the fresh
capability lookup for the bot; the pipeline holds no state besides the
per-invocation trace, so no status is cached across invocations. -/
theorem C6_lookups_precede_mutations (env : Env) (ctx : Ctx) (action : String)
    (h : mutationEvents (handleKickBanUnban env ctx action).1 ≠ []) :
    ∃ rest, (handleKickBanUnban env ctx action).1 =
      Event.getChatMember ctx.fromId :: Event.getChatMember ctx.meId :: rest := by
  cases hr : ctx.replyToFromId with
  | none => simp [handleKickBanUnban, hr, mutationEvents, Event.isMutation] at h
  | some t =>
    simp only [handleKickBanUnban, hr] at h ⊢
    by_cases hm : isMe ctx
    · simp [restrictUser, hm, mutationEvents, Event.isMutation] at h
    · cases hq : env.getChatMember ctx.fromId with
      | error e =>
        simp [restrictUser, isAdmin, hq, hm, Except.map, mutationEvents,
          Event.isMutation] at h
      | ok u =>
        cases hadm : (u.status == "administrator" || u.status == "creator") with
        | false =>
          simp [restrictUser, isAdmin, hq, hm, hadm, Except.map, mutationEvents,
            Event.isMutation] at h
        | true =>
          cases hbot : env.getChatMember ctx.meId with
          | error e =>
            simp [restrictUser, isAdmin, canRestrict, hq, hbot, hm, hadm,
              Except.map, mutationEvents, Event.isMutation] at h
          | ok b =>
            cases hcap : b.can_restrict_members with
            | false =>
              simp [restrictUser, isAdmin, canRestrict, hq, hbot, hm, hadm, hcap,
                Except.map, mutationEvents, Event.isMutation] at h
            | true =>
              by_cases h0 : t = 0
              · simp [restrictUser, isAdmin, canRestrict, hq, hbot, hm, hadm,
                  hcap, hr, h0, Except.map, mutationEvents, Event.isMutation] at h
              · rcases ha : applyAction env action t with ⟨t3, r3⟩
                cases r3 with
                | ok v =>
                  exact ⟨t3, by simp [restrictUser, isAdmin, canRestrict, hq,
                    hbot, hm, hadm, hcap, hr, h0, Except.map]⟩
                | error e =>
                  exact ⟨t3 ++ [Event.logError,
                    Event.reply "An error occurred while trying to restrict the user"],
                    by simp [restrictUser, isAdmin, canRestrict, hq, hbot, hm,
                      hadm, hcap, hr, h0, Except.map]⟩

/-- Witness for C6: the all-permitting transport, where a `kick` does
mutate. -/
theorem C6_witness :
    mutationEvents (handleKickBanUnban envOk ctxReply3 "kick").1 ≠ []
    ∧ ∃ rest, (handleKickBanUnban envOk ctxReply3 "kick").1 =
        Event.getChatMember 1 :: Event.getChatMember 2 :: rest :=
  ⟨by decide, C6_lookups_precede_mutations envOk ctxReply3 "kick" (by decide)⟩

/-- The trace `applyAction` can produce: each mutation call is issued at
most once, in the order ban before unban (bot.js:94-100). -/
theorem applyAction_trace_shape (env : Env) (action : String) (t : Nat) :
    (applyAction env action t).1 = []
    ∨ (applyAction env action t).1 = [Event.banChatMember t]
    ∨ (applyAction env action t).1 = [Event.banChatMember t, Event.unbanChatMember t]
    ∨ (applyAction env action t).1 = [Event.unbanChatMember t] := by
  cases h1 : (action == "kick" || action == "ban") with
  | false =>
    cases h2 : (action == "kick" || action == "unban") with
    | false => simp [applyAction, h1, h2]
    | true => simp [applyAction, h1, h2]
  | true =>
    cases hb : env.banChatMember t with
    | error e => simp [applyAction, h1, hb]
    | ok v =>
      cases h2 : (action == "kick" || action == "unban") with
      | false => simp [applyAction, h1, h2, hb]
      | true => simp [applyAction, h1, h2, hb]

/-- C7: when the mutation action throws (admin invoker, capable bot,
valid target), the pipeline catches the error at the action call, logs
it, sends the single generic failure reply, does not retry (the
mutation trace is issued once and each mutation call appears in it at
most once, ban before unban), and the handler terminates normally
instead of propagating the error. -/
theorem C7_mutation_failure_caught (env : Env) (ctx : Ctx) (action : String)
    (t : Nat) (u b : ChatMember)
    (hreply : ctx.replyToFromId = some t) (hne : t ≠ ctx.meId) (h0 : t ≠ 0)
    (hq : env.getChatMember ctx.fromId = Except.ok u)
    (hst : u.status = "administrator" ∨ u.status = "creator")
    (hbot : env.getChatMember ctx.meId = Except.ok b)
    (hcap : b.can_restrict_members = true)
    (hfail : (applyAction env action t).2 = Except.error ()) :
    handleKickBanUnban env ctx action =
      ([Event.getChatMember ctx.fromId, Event.getChatMember ctx.meId]
        ++ (applyAction env action t).1
        ++ [Event.logError,
            Event.reply "An error occurred while trying to restrict the user"],
        Except.ok ())
    ∧ replyEvents (handleKickBanUnban env ctx action).1 =
        [Event.reply "An error occurred while trying to restrict the user"]
    ∧ ((applyAction env action t).1 = [Event.banChatMember t]
        ∨ (applyAction env action t).1 =
            [Event.banChatMember t, Event.unbanChatMember t]
        ∨ (applyAction env action t).1 = [Event.unbanChatMember t]) := by
  have hme : (t == ctx.meId) = false := beq_eq_false_iff_ne.mpr hne
  have h0' : (t == 0) = false := beq_eq_false_iff_ne.mpr h0
  have hadm : (u.status == "administrator" || u.status == "creator") = true := by
    rcases hst with h | h <;> simp [h]
  rcases ha : applyAction env action t with ⟨t3, r3⟩
  rw [ha] at hfail
  simp only at hfail
  subst hfail
  have hshape := applyAction_trace_shape env action t
  rw [ha] at hshape
  simp only at hshape
  have htr : handleKickBanUnban env ctx action =
      ([Event.getChatMember ctx.fromId, Event.getChatMember ctx.meId]
        ++ t3
        ++ [Event.logError,
            Event.reply "An error occurred while trying to restrict the user"],
        Except.ok ()) := by
    simp [handleKickBanUnban, restrictUser, isAdmin, canRestrict, isMe, hreply,
      hme, h0', hq, hbot, Except.map, hadm, hcap, ha]
  refine ⟨htr, ?_, ?_⟩
  · rw [htr]
    rcases hshape with h | h | h | h <;>
      simp [h, replyEvents, Event.isReply]
  · rcases hshape with h | h | h | h
    · rw [h] at ha
      exfalso
      revert ha
      cases h1 : (action == "kick" || action == "ban") with
      | false =>
        cases h2 : (action == "kick" || action == "unban") with
        | false => simp [applyAction, h1, h2]
        | true =>
          cases hu : env.unbanChatMember t with
          | error e => intro hh; simp [applyAction, h1, h2, hu] at hh
          | ok v => intro hh; simp [applyAction, h1, h2, hu] at hh
      | true =>
        cases hb2 : env.banChatMember t with
        | error e => intro hh; simp [applyAction, h1, hb2] at hh
        | ok v =>
          cases h2 : (action == "kick" || action == "unban") with
          | false => intro hh; simp [applyAction, h1, h2, hb2] at hh
          | true =>
            cases hu : env.unbanChatMember t with
            | error e => intro hh; simp [applyAction, h1, h2, hb2, hu] at hh
            | ok v => intro hh; simp [applyAction, h1, h2, hb2, hu] at hh
    · exact Or.inl h
    · exact Or.inr (Or.inl h)
    · exact Or.inr (Or.inr h)

/-- Witness for C7: a `kick` whose ban call throws. -/
theorem C7_witness :
    handleKickBanUnban envBanFails ctxReply3 "kick" =
      ([Event.getChatMember 1, Event.getChatMember 2]
        ++ (applyAction envBanFails "kick" 3).1
        ++ [Event.logError,
            Event.reply "An error occurred while trying to restrict the user"],
        Except.ok ())
    ∧ replyEvents (handleKickBanUnban envBanFails ctxReply3 "kick").1 =
        [Event.reply "An error occurred while trying to restrict the user"]
    ∧ ((applyAction envBanFails "kick" 3).1 = [Event.banChatMember 3]
        ∨ (applyAction envBanFails "kick" 3).1 =
            [Event.banChatMember 3, Event.unbanChatMember 3]
        ∨ (applyAction envBanFails "kick" 3).1 = [Event.unbanChatMember 3]) :=
  C7_mutation_failure_caught envBanFails ctxReply3 "kick" 3 adminMember adminMember
    rfl (by decide) (by decide) rfl (Or.inl rfl) rfl rfl rfl

/-- C10: when the invoker-status query throws, or the invoker passes the
admin check and the bot-capability query throws, the pipeline issues no
mutation call and sends no reply, and the error propagates out of the
handler (`Except.error`), leaving the chat state unchanged. -/
theorem C10_query_failure_propagates (env : Env) (ctx : Ctx) (action : String)
    (t : Nat) (hreply : ctx.replyToFromId = some t) (hne : t ≠ ctx.meId)
    (hfail : env.getChatMember ctx.fromId = Except.error ()
      ∨ ∃ u, env.getChatMember ctx.fromId = Except.ok u
          ∧ (u.status = "administrator" ∨ u.status = "creator")
          ∧ env.getChatMember ctx.meId = Except.error ()) :
    (handleKickBanUnban env ctx action).2 = Except.error ()
    ∧ mutationEvents (handleKickBanUnban env ctx action).1 = []
    ∧ replyEvents (handleKickBanUnban env ctx action).1 = [] := by
  have hme : (t == ctx.meId) = false := beq_eq_false_iff_ne.mpr hne
  rcases hfail with hq | ⟨u, hq, hst, hbot⟩
  · refine ⟨?_, ?_, ?_⟩ <;>
      simp [handleKickBanUnban, restrictUser, isAdmin, isMe, hreply, hme, hq,
        Except.map, mutationEvents, replyEvents, Event.isMutation, Event.isReply]
  · have hadm : (u.status == "administrator" || u.status == "creator") = true := by
      rcases hst with h | h <;> simp [h]
    refine ⟨?_, ?_, ?_⟩ <;>
      simp [handleKickBanUnban, restrictUser, isAdmin, canRestrict, isMe, hreply,
        hme, hq, hbot, hadm, Except.map, mutationEvents, replyEvents,
        Event.isMutation, Event.isReply]

/-- Witness for C10: a transport whose membership lookups throw. -/
theorem C10_witness :
    (handleKickBanUnban envQFail ctxReply3 "ban").2 = Except.error ()
    ∧ mutationEvents (handleKickBanUnban envQFail ctxReply3 "ban").1 = []
    ∧ replyEvents (handleKickBanUnban envQFail ctxReply3 "ban").1 = [] :=
  C10_query_failure_propagates envQFail ctxReply3 "ban" 3 rfl (by decide)
    (Or.inl rfl)

/-- C1 (amended): with an admin invoker, a capable bot, a reply to user
`t` (another user with a JS-truthy id), and the ban transport call
succeeding, a `kick` issues exactly two membership mutations against
`t`, ban first and unban second, and no other mutation call occurs. -/
theorem C1_kick_bans_then_unbans (env : Env) (ctx : Ctx) (t : Nat) (u b : ChatMember)
    (hreply : ctx.replyToFromId = some t) (hne : t ≠ ctx.meId) (h0 : t ≠ 0)
    (hq : env.getChatMember ctx.fromId = Except.ok u)
    (hst : u.status = "administrator" ∨ u.status = "creator")
    (hbot : env.getChatMember ctx.meId = Except.ok b)
    (hcap : b.can_restrict_members = true)
    (hban : env.banChatMember t = Except.ok ()) :
    mutationEvents (handleKickBanUnban env ctx "kick").1 =
      [Event.banChatMember t, Event.unbanChatMember t] := by
  have hme : (t == ctx.meId) = false := beq_eq_false_iff_ne.mpr hne
  have h0' : (t == 0) = false := beq_eq_false_iff_ne.mpr h0
  have hadm : (u.status == "administrator" || u.status == "creator") = true := by
    rcases hst with h | h <;> simp [h]
  cases hu : env.unbanChatMember t with
  | error e =>
    simp [handleKickBanUnban, restrictUser, isAdmin, canRestrict, isMe,
      applyAction, hreply, hme, h0', hq, hbot, Except.map, hadm, hcap, hban, hu,
      mutationEvents, Event.isMutation]
  | ok v =>
    simp [handleKickBanUnban, restrictUser, isAdmin, canRestrict, isMe,
      applyAction, hreply, hme, h0', hq, hbot, Except.map, hadm, hcap, hban, hu,
      mutationEvents, Event.isMutation]

/-- Witness for the amended C1 at the all-permitting transport. -/
theorem C1_witness :
    mutationEvents (handleKickBanUnban envOk ctxReply3 "kick").1 =
      [Event.banChatMember 3, Event.unbanChatMember 3] :=
  C1_kick_bans_then_unbans envOk ctxReply3 3 adminMember adminMember rfl
    (by decide) (by decide) rfl (Or.inl rfl) rfl rfl rfl

/-- Counterexample to C1 as stated: with an admin invoker, a capable
bot, and a reply to user 3, a `kick` whose `banChatMember` transport
call throws issues exactly one membership-mutation call, not two — the
unban is skipped, the error is caught, and the generic failure reply is
sent instead. -/
theorem C1_counterexample :
    envBanFails.getChatMember 1 = Except.ok ⟨"administrator", true⟩
    ∧ envBanFails.getChatMember 2 = Except.ok ⟨"administrator", true⟩
    ∧ ctxReply3.replyToFromId = some 3
    ∧ mutationEvents (handleKickBanUnban envBanFails ctxReply3 "kick").1 =
        [Event.banChatMember 3]
    ∧ mutationEvents (handleKickBanUnban envBanFails ctxReply3 "kick").1 ≠
        [Event.banChatMember 3, Event.unbanChatMember 3] :=
  ⟨rfl, rfl, rfl, by decide, by decide⟩

/-! ## Link normalizer: supporting lemmas -/

/-- `String.mk` undoes `String.data`. -/
theorem mk_data (s : String) : String.mk s.data = s := rfl

/-- Stripping a pattern off a text that starts with it leaves the
rest. -/
theorem stripL_self (p r : List Char) : stripL p (p ++ r) = some r := by
  induction p with
  | nil => rfl
  | cons c cs ih => simp [stripL, ih]

/-- Stripping fails on a first-character mismatch. -/
theorem stripL_cons_ne (p : Char) (ps : List Char) (c : Char) (cs : List Char)
    (h : (c == p) = false) : stripL (p :: ps) (c :: cs) = none := by
  simp [stripL, h]

/-- A greedy character-class munch over a block of matching characters
followed by a non-matching boundary takes exactly the block. -/
theorem takeWhile_boundary (p : Char → Bool) (xs ys : List Char)
    (h1 : ∀ c ∈ xs, p c = true) (h2 : ∀ c ∈ ys.head?, p c = false) :
    (xs ++ ys).takeWhile p = xs := by
  induction xs with
  | nil =>
    cases ys with
    | nil => rfl
    | cons c ys' =>
      have hc : p c = false := h2 c (by simp)
      simp [List.takeWhile_cons, hc]
  | cons c xs' ih =>
    have hc : p c = true := h1 c (by simp)
    simp [List.takeWhile_cons, hc, ih (fun a ha => h1 a (by simp [ha]))]

/-- The matching remainder of the same munch. -/
theorem dropWhile_boundary (p : Char → Bool) (xs ys : List Char)
    (h1 : ∀ c ∈ xs, p c = true) (h2 : ∀ c ∈ ys.head?, p c = false) :
    (xs ++ ys).dropWhile p = ys := by
  induction xs with
  | nil =>
    cases ys with
    | nil => rfl
    | cons c ys' =>
      have hc : p c = false := h2 c (by simp)
      simp [List.dropWhile_cons, hc]
  | cons c xs' ih =>
    have hc : p c = true := h1 c (by simp)
    simp [List.dropWhile_cons, hc, ih (fun a ha => h1 a (by simp [ha]))]

/-- A word character is not a slash. -/
theorem wordChar_ne_slash {c : Char} (h : isWordChar c = true) :
    (c == '/') = false := by
  cases hc : (c == '/') with
  | false => rfl
  | true =>
    have : c = '/' := by simpa using hc
    subst this
    simp [isWordChar] at h

/-- If stripping `ps ++ [/]` succeeds on `hs ++ / :: zs` with `hs` and
`ps` made of word characters, the slash positions must line up: `hs`
is `ps` and the remainder is `zs`. -/
theorem stripL_word_slash (ps : List Char) :
    ∀ hs zs r : List Char, (∀ c ∈ hs, isWordChar c = true) →
    (∀ c ∈ ps, isWordChar c = true) →
    stripL (ps ++ ['/']) (hs ++ '/' :: zs) = some r → hs = ps ∧ r = zs := by
  induction ps with
  | nil =>
    intro hs zs r hw _ h
    cases hs with
    | nil =>
      simp [stripL] at h
      exact ⟨rfl, h.symm⟩
    | cons c hs' =>
      have hc := wordChar_ne_slash (hw c (by simp))
      rw [List.nil_append, List.cons_append] at h
      rw [stripL_cons_ne _ _ _ _ hc] at h
      exact absurd h (by simp)
  | cons p ps' ih =>
    intro hs zs r hw hp h
    cases hs with
    | nil =>
      have hp0 := wordChar_ne_slash (hp p (by simp))
      have hp0' : ('/' == p) = false := by
        cases hpc : ('/' == p) with
        | false => rfl
        | true =>
          have : '/' = p := by simpa using hpc
          rw [← this] at hp0
          simp at hp0
      rw [List.nil_append, List.cons_append] at h
      rw [stripL_cons_ne _ _ _ _ hp0'] at h
      exact absurd h (by simp)
    | cons c hs' =>
      rw [List.cons_append, List.cons_append] at h
      cases hc : (c == p) with
      | false =>
        rw [stripL_cons_ne _ _ _ _ hc] at h
        exact absurd h (by simp)
      | true =>
        have hceq : c = p := by simpa using hc
        subst hceq
        simp only [stripL, hc, if_true] at h
        obtain ⟨h1, h2⟩ :=
          ih hs' zs r (fun a ha => hw a (by simp [ha])) (fun a ha => hp a (by simp [ha])) h
        exact ⟨by rw [h1], h2⟩

/-- At the slash separating the handle from `/status/`, the
id-extraction pattern cannot match: either the strip fails inside the
handle, or (handle = "status") the characters after the stripped
pattern start with `s`, not a digit. -/
theorem matchStatusIdAt_boundary (hs zs : List Char)
    (hw : ∀ c ∈ hs, isWordChar c = true) :
    matchStatusIdAt ('/' :: (hs ++ ("/status/".data ++ zs))) = none := by
  have hshape : hs ++ ("/status/".data ++ zs) = hs ++ '/' :: ("status/".data ++ zs) := rfl
  have hstep : stripL ("/status/".data) ('/' :: (hs ++ '/' :: ("status/".data ++ zs))) =
      stripL ("status".data ++ ['/']) (hs ++ '/' :: ("status/".data ++ zs)) := by
    rw [show ("/status/" : String).data = '/' :: ("status".data ++ ['/']) from rfl]
    simp [stripL]
  rw [hshape, matchStatusIdAt, hstep]
  rcases hres : stripL ("status".data ++ ['/']) (hs ++ '/' :: ("status/".data ++ zs))
    with _ | r
  · rfl
  · obtain ⟨-, hr⟩ :=
      stripL_word_slash ("status".data) hs ("status/".data ++ zs) r hw (by decide) hres
    subst hr
    simp [List.takeWhile_cons, isDigitChar]

/-- Scanning past a character other than `/` does not change the
leftmost `\/status\/(\d+)` match. -/
theorem findStatusId_skip (c : Char) (cs : List Char) (hc : (c == '/') = false) :
    findStatusId (c :: cs) = findStatusId cs := by
  have hnone : matchStatusIdAt (c :: cs) = none := by
    rw [matchStatusIdAt,
      show ("/status/" : String).data = '/' :: ("status/" : String).data from rfl,
      stripL_cons_ne _ _ _ _ hc]
  simp [findStatusId, hnone]

/-- Scanning past a `/` followed by a character other than `s` does not
change the leftmost match either. -/
theorem findStatusId_skip_slash (c : Char) (cs : List Char)
    (hc : (c == 's') = false) :
    findStatusId ('/' :: c :: cs) = findStatusId (c :: cs) := by
  have hnone : matchStatusIdAt ('/' :: c :: cs) = none := by
    rw [matchStatusIdAt,
      show ("/status/" : String).data = '/' :: ("status/" : String).data from rfl]
    simp [stripL, hc]
  simp [findStatusId, hnone]

/-- A `bodySafe` block contributes nothing to the leftmost
`\/status\/(\d+)` match, whatever follows it. -/
theorem bodySafe_skip (xs : List Char) (rest : List Char)
    (hx : bodySafe xs = true) :
    findStatusId (xs ++ rest) = findStatusId rest := by
  induction xs with
  | nil => rfl
  | cons c cs ih =>
    by_cases hc : (c == '/') = true
    · have hceq : c = '/' := by simpa using hc
      subst hceq
      cases cs with
      | nil => simp [bodySafe] at hx
      | cons c2 cs2 =>
        simp only [bodySafe, beq_self_eq_true, if_true, Bool.and_eq_true,
          Bool.not_eq_true'] at hx
        obtain ⟨hs2, hrest⟩ := hx
        rw [List.cons_append, List.cons_append, findStatusId_skip_slash _ _ hs2,
          ← List.cons_append, ih hrest]
    · have hc' : (c == '/') = false := by simpa using hc
      have hx' : bodySafe cs = true := by
        simp only [bodySafe, hc', Bool.false_eq_true, if_false] at hx
        exact hx
      rw [List.cons_append, findStatusId_skip _ _ hc', ih hx']

/-- A block of word characters contributes nothing to the leftmost
`\/status\/(\d+)` match. -/
theorem findStatusId_word_skip (hs : List Char) (rest : List Char)
    (hw : ∀ c ∈ hs, isWordChar c = true) :
    findStatusId (hs ++ rest) = findStatusId rest := by
  induction hs with
  | nil => rfl
  | cons c cs ih =>
    rw [List.cons_append, findStatusId_skip _ _ (wordChar_ne_slash (hw c (by simp))),
      ih (fun a ha => hw a (by simp [ha]))]

/-- The id-extraction pattern matches at `/status/` followed by the
digits, capturing exactly the digit block. -/
theorem matchStatusIdAt_hit (ds ss : List Char)
    (hd : ∀ c ∈ ds, isDigitChar c = true) (hd0 : ds ≠ [])
    (hss : ∀ c ∈ ss.head?, isDigitChar c = false) :
    matchStatusIdAt ("/status/".data ++ (ds ++ ss)) = some (String.mk ds) := by
  rw [matchStatusIdAt, stripL_self]
  cases ds with
  | nil => exact absurd rfl hd0
  | cons d0 ds' =>
    have htk : List.takeWhile isDigitChar (d0 :: (ds' ++ ss)) = d0 :: ds' := by
      rw [← List.cons_append]
      exact takeWhile_boundary _ _ _ hd hss
    simp [htk]

/-- Leftmost scan, successful head position. -/
theorem findStatusId_cons_some (c : Char) (cs : List Char) (r : String)
    (h : matchStatusIdAt (c :: cs) = some r) : findStatusId (c :: cs) = some r := by
  simp [findStatusId, h]

/-- Leftmost scan on a full status-post URL with a `bodySafe`
scheme-and-host block: the captured id is the URL's digit block. -/
theorem findStatusId_url (body : List Char) (hbody : bodySafe body = true)
    (hs ds ss : List Char)
    (hw : ∀ c ∈ hs, isWordChar c = true)
    (hd : ∀ c ∈ ds, isDigitChar c = true) (hd0 : ds ≠ [])
    (hss : ∀ c ∈ ss.head?, isDigitChar c = false) :
    findStatusId (body ++ '/' :: (hs ++ ("/status/".data ++ (ds ++ ss)))) =
      some (String.mk ds) := by
  rw [bodySafe_skip body _ hbody, findStatusId,
    matchStatusIdAt_boundary hs (ds ++ ss) hw]
  show findStatusId (hs ++ ("/status/".data ++ (ds ++ ss))) = some (String.mk ds)
  rw [findStatusId_word_skip hs _ hw]
  exact findStatusId_cons_some '/' ("status/".data ++ (ds ++ ss)) _
    (matchStatusIdAt_hit ds ss hd hd0 hss)

/-- The tail pattern `\/(\w+)\/status\/(\d+)` matches the constructed
handle-and-id tail, capturing exactly the handle and the digits. -/
theorem matchTwitterTail_url (hs ds ss : List Char)
    (hw : ∀ c ∈ hs, isWordChar c = true) (hh : hs ≠ [])
    (hd : ∀ c ∈ ds, isDigitChar c = true) (hd0 : ds ≠ [])
    (hss : ∀ c ∈ ss.head?, isDigitChar c = false) :
    matchTwitterTail ('/' :: (hs ++ ("/status/".data ++ (ds ++ ss)))) =
      some (String.mk hs, String.mk ds) := by
  have hhead : ∀ c ∈ (("/status/".data ++ (ds ++ ss) : List Char)).head?,
      isWordChar c = false := by
    intro c hc
    have h0 : (("/status/".data ++ (ds ++ ss) : List Char)).head? = some c := hc
    rw [show ((("/status/".data ++ (ds ++ ss)) : List Char)).head? = some '/' from rfl]
      at h0
    cases h0
    decide
  simp only [matchTwitterTail]
  rw [takeWhile_boundary isWordChar hs _ hw hhead,
    dropWhile_boundary isWordChar hs _ hw hhead, stripL_self]
  cases hs with
  | nil => exact absurd rfl hh
  | cons h0 hs' =>
    cases ds with
    | nil => exact absurd rfl hd0
    | cons d0 ds' =>
      have htk : List.takeWhile isDigitChar (d0 :: (ds' ++ ss)) = d0 :: ds' := by
        rw [← List.cons_append]
        exact takeWhile_boundary _ _ _ hd hss
      simp [htk]

/-- Leftmost twitter scan, successful head position. -/
theorem findTwitter_cons_some (c : Char) (cs : List Char) (r : String × String)
    (h : matchTwitterAt (c :: cs) = some r) : findTwitter (c :: cs) = some r := by
  simp [findTwitter, h]

/-- The handler output determined by the two scans (bot.js:199-207). -/
theorem twitterHandler_eq (text : String) (p : String × String) (i : String)
    (h1 : findTwitter text.data = some p) (h2 : findStatusId text.data = some i) :
    twitterHandler text = some ("https://fxtwitter.com/" ++ p.1 ++ "/status/" ++ i) := by
  rcases p with ⟨u, v⟩
  simp [twitterHandler, h1, h2]

/-- C8 (amended): for every message that is a status-post URL of one of
the two recognized domains (either scheme, optional `www.`) with handle
`h` and id `d`, followed by arbitrary extra path/query characters that
do not start with a digit, the normalizer outputs exactly the
fxtwitter URL embedding `h` and `d` — no query string, all other
segments discarded.  (When extra text precedes the URL, the id is
re-extracted from the first `/status/` occurrence anywhere in the text
and can differ from `d`; see the counterexample.) -/
theorem C8_twitter_status_normalized (pre h d suffix : String)
    (hpre : pre ∈ (["https://twitter.com/", "http://twitter.com/",
      "https://x.com/", "http://x.com/",
      "https://www.twitter.com/", "http://www.twitter.com/",
      "https://www.x.com/", "http://www.x.com/"] : List String))
    (hw : ∀ c ∈ h.data, isWordChar c = true) (hh : h.data ≠ [])
    (hd : ∀ c ∈ d.data, isDigitChar c = true) (hd0 : d.data ≠ [])
    (hsfx : ∀ c ∈ suffix.data.head?, isDigitChar c = false) :
    twitterHandler (pre ++ h ++ "/status/" ++ d ++ suffix) =
      some ("https://fxtwitter.com/" ++ h ++ "/status/" ++ d) := by
  have htail := matchTwitterTail_url h.data d.data suffix.data hw hh hd hd0 hsfx
  fin_cases hpre
  · have hX : (("https://twitter.com/" : String) ++ h ++ "/status/" ++ d ++ suffix).data =
        "https://twitter.com/".data ++ (h.data ++ ("/status/".data ++ (d.data ++ suffix.data))) := by
      simp [String.data_append]
    refine twitterHandler_eq _ (String.mk h.data, String.mk d.data) (String.mk d.data) ?_ ?_
    · rw [hX]
      exact findTwitter_cons_some _ _ _ htail
    · rw [hX]
      exact findStatusId_url ("https://twitter.com".data) (by decide) h.data d.data
        suffix.data hw hd hd0 hsfx
  · have hX : (("http://twitter.com/" : String) ++ h ++ "/status/" ++ d ++ suffix).data =
        "http://twitter.com/".data ++ (h.data ++ ("/status/".data ++ (d.data ++ suffix.data))) := by
      simp [String.data_append]
    refine twitterHandler_eq _ (String.mk h.data, String.mk d.data) (String.mk d.data) ?_ ?_
    · rw [hX]
      exact findTwitter_cons_some _ _ _ htail
    · rw [hX]
      exact findStatusId_url ("http://twitter.com".data) (by decide) h.data d.data
        suffix.data hw hd hd0 hsfx
  · have hX : (("https://x.com/" : String) ++ h ++ "/status/" ++ d ++ suffix).data =
        "https://x.com/".data ++ (h.data ++ ("/status/".data ++ (d.data ++ suffix.data))) := by
      simp [String.data_append]
    refine twitterHandler_eq _ (String.mk h.data, String.mk d.data) (String.mk d.data) ?_ ?_
    · rw [hX]
      exact findTwitter_cons_some _ _ _ htail
    · rw [hX]
      exact findStatusId_url ("https://x.com".data) (by decide) h.data d.data
        suffix.data hw hd hd0 hsfx
  · have hX : (("http://x.com/" : String) ++ h ++ "/status/" ++ d ++ suffix).data =
        "http://x.com/".data ++ (h.data ++ ("/status/".data ++ (d.data ++ suffix.data))) := by
      simp [String.data_append]
    refine twitterHandler_eq _ (String.mk h.data, String.mk d.data) (String.mk d.data) ?_ ?_
    · rw [hX]
      exact findTwitter_cons_some _ _ _ htail
    · rw [hX]
      exact findStatusId_url ("http://x.com".data) (by decide) h.data d.data
        suffix.data hw hd hd0 hsfx
  · have hX : (("https://www.twitter.com/" : String) ++ h ++ "/status/" ++ d ++ suffix).data =
        "https://www.twitter.com/".data ++ (h.data ++ ("/status/".data ++ (d.data ++ suffix.data))) := by
      simp [String.data_append]
    refine twitterHandler_eq _ (String.mk h.data, String.mk d.data) (String.mk d.data) ?_ ?_
    · rw [hX]
      exact findTwitter_cons_some _ _ _ htail
    · rw [hX]
      exact findStatusId_url ("https://www.twitter.com".data) (by decide) h.data d.data
        suffix.data hw hd hd0 hsfx
  · have hX : (("http://www.twitter.com/" : String) ++ h ++ "/status/" ++ d ++ suffix).data =
        "http://www.twitter.com/".data ++ (h.data ++ ("/status/".data ++ (d.data ++ suffix.data))) := by
      simp [String.data_append]
    refine twitterHandler_eq _ (String.mk h.data, String.mk d.data) (String.mk d.data) ?_ ?_
    · rw [hX]
      exact findTwitter_cons_some _ _ _ htail
    · rw [hX]
      exact findStatusId_url ("http://www.twitter.com".data) (by decide) h.data d.data
        suffix.data hw hd hd0 hsfx
  · have hX : (("https://www.x.com/" : String) ++ h ++ "/status/" ++ d ++ suffix).data =
        "https://www.x.com/".data ++ (h.data ++ ("/status/".data ++ (d.data ++ suffix.data))) := by
      simp [String.data_append]
    refine twitterHandler_eq _ (String.mk h.data, String.mk d.data) (String.mk d.data) ?_ ?_
    · rw [hX]
      exact findTwitter_cons_some _ _ _ htail
    · rw [hX]
      exact findStatusId_url ("https://www.x.com".data) (by decide) h.data d.data
        suffix.data hw hd hd0 hsfx
  · have hX : (("http://www.x.com/" : String) ++ h ++ "/status/" ++ d ++ suffix).data =
        "http://www.x.com/".data ++ (h.data ++ ("/status/".data ++ (d.data ++ suffix.data))) := by
      simp [String.data_append]
    refine twitterHandler_eq _ (String.mk h.data, String.mk d.data) (String.mk d.data) ?_ ?_
    · rw [hX]
      exact findTwitter_cons_some _ _ _ htail
    · rw [hX]
      exact findStatusId_url ("http://www.x.com".data) (by decide) h.data d.data
        suffix.data hw hd hd0 hsfx

/-- Witness for the amended C8: a status URL with extra path and query
segments. -/
theorem C8_witness :
    twitterHandler ("https://twitter.com/" ++ "alice" ++ "/status/" ++ "123" ++ "/photo/1?s=20") =
      some ("https://fxtwitter.com/" ++ "alice" ++ "/status/" ++ "123") :=
  C8_twitter_status_normalized "https://twitter.com/" "alice" "123" "/photo/1?s=20"
    (by decide) (by decide) (by decide) (by decide) (by decide) (by decide)

/-- Counterexample to C8 as stated: a message containing the status URL
`https://twitter.com/alice/status/123` (handle alice, id 123) preceded
by the text `/status/999 `.  The id is re-extracted from the first
`/status/<digits>` occurrence of the whole message, so the output embeds
999, not the URL's id 123. -/
theorem C8_counterexample :
    twitterHandler "/status/999 https://twitter.com/alice/status/123" =
      some "https://fxtwitter.com/alice/status/999"
    ∧ twitterHandler "/status/999 https://twitter.com/alice/status/123" ≠
      some ("https://fxtwitter.com/" ++ "alice" ++ "/status/" ++ "123") :=
  ⟨by decide, by decide⟩

/-! ## Reddit handler lemmas -/

/-- Two strings with the same character data are equal. -/
theorem string_eq_of_data (a b : String) (h : a.data = b.data) : a = b := by
  cases a
  cases b
  exact congrArg String.mk h

/-- `replace` scans past a character that cannot start `reddit.com`. -/
theorem replace_skip (c : Char) (cs : List Char) (hc : (c == 'r') = false) :
    replaceRedditFirst (c :: cs) = c :: replaceRedditFirst cs := by
  rw [replaceRedditFirst,
    show ("reddit.com" : String).data = 'r' :: ("eddit.com" : String).data from rfl,
    stripL_cons_ne _ _ _ _ hc]

/-- `replace` scans past a whole block without an `r`. -/
theorem replace_skip_block (xs rest : List Char)
    (hx : ∀ c ∈ xs, (c == 'r') = false) :
    replaceRedditFirst (xs ++ rest) = xs ++ replaceRedditFirst rest := by
  induction xs with
  | nil => rfl
  | cons c cs ih =>
    rw [List.cons_append, replace_skip c _ (hx c (by simp)),
      ih (fun a ha => hx a (by simp [ha])), List.cons_append]

/-- `replace` rewrites the first `reddit.com` occurrence it reaches. -/
theorem replace_hit (X : List Char) :
    replaceRedditFirst ("reddit.com".data ++ X) = "rxddit.com".data ++ X := by
  show replaceRedditFirst ('r' :: ("eddit.com".data ++ X)) = "rxddit.com".data ++ X
  rw [replaceRedditFirst,
    show stripL ("reddit.com".data) ('r' :: ("eddit.com".data ++ X)) = some X from
      stripL_self _ _]

/-- The scheme block then the host rewrite, composed. -/
theorem replaceReddit_scheme (sch : List Char)
    (hsr : ∀ c ∈ sch, (c == 'r') = false) (X : List Char) :
    replaceRedditFirst (sch ++ ("reddit.com".data ++ X)) =
      sch ++ ("rxddit.com".data ++ X) := by
  rw [replace_skip_block sch _ hsr, replace_hit]

/-- `split("?")[0]` of a text built as a question-mark-free part
followed by `?query` is the part before the `?`. -/
theorem splitQHead_boundary (xs q : List Char)
    (hx : ∀ c ∈ xs, (c == '?') = false) :
    splitQHead (xs ++ ('?' :: q)) = xs := by
  rw [splitQHead]
  refine takeWhile_boundary _ _ _ ?_ ?_
  · intro c hc
    simp [hx c hc]
  · intro c hc
    have h0 : some '?' = some c := hc
    cases h0
    decide

/-- `split("?")[0]` of a question-mark-free text is the whole text. -/
theorem splitQHead_all (xs : List Char) (hx : ∀ c ∈ xs, (c == '?') = false) :
    splitQHead xs = xs := by
  have h := takeWhile_boundary (fun c => !(c == '?')) xs []
    (by intro c hc; simp [hx c hc]) (by intro c hc; simp at hc)
  rw [List.append_nil] at h
  rw [splitQHead, h]

/-- C9 (amended): for every message whose text is a reddit thread URL
(either scheme, optional `www.`), with a `?`-free remainder `path` after
the host and an optional `?query`, the handler's output is the text up
to the first `?` with the host's `reddit.com` replaced by `rxddit.com`:
the URL prefix with only the host segment rewritten, path segments
before the `?` preserved verbatim, and the query dropped.  (When other
text surrounds the URL, the handler rewrites the whole message text —
splitting at the message's first `?` and replacing its first
`reddit.com` occurrence — not the matched URL prefix; see the
counterexample.) -/
theorem C9_reddit_thread_normalized (pre pre2 path q u : String)
    (hpre : (pre, pre2) ∈ ([("https://reddit.com/", "https://rxddit.com/"),
      ("http://reddit.com/", "http://rxddit.com/"),
      ("https://www.reddit.com/", "https://www.rxddit.com/"),
      ("http://www.reddit.com/", "http://www.rxddit.com/")] : List (String × String)))
    (hpath : ∀ c ∈ path.data, (c == '?') = false)
    (hgate1 : findReddit (pre ++ path ++ "?" ++ q).data = true)
    (hgate2 : findReddit (pre ++ path).data = true) :
    redditHandler (pre ++ path ++ "?" ++ q) u =
      some ("From @" ++ u ++ ":\n" ++ (pre2 ++ path))
    ∧ redditHandler (pre ++ path) u =
      some ("From @" ++ u ++ ":\n" ++ (pre2 ++ path)) := by
  fin_cases hpre
  · have hx : ∀ c ∈ (("https://reddit.com/" : String).data ++ path.data : List Char),
        (c == '?') = false := by
      intro c hc
      rcases List.mem_append.mp hc with h | h
      · exact (by decide : ∀ c ∈ ("https://reddit.com/" : String).data,
          (c == '?') = false) c h
      · exact hpath c h
    have hclean : cleanedRedditUrl ("https://reddit.com/" ++ path ++ "?" ++ q) =
        "https://rxddit.com/" ++ path := by
      rw [cleanedRedditUrl,
        show (("https://reddit.com/" : String) ++ path ++ "?" ++ q).data =
          (("https://reddit.com/" : String).data ++ path.data) ++ ('?' :: q.data) from by
            simp [String.data_append],
        splitQHead_boundary _ _ hx,
        show (("https://reddit.com/" : String).data ++ path.data : List Char) =
          "https://".data ++ ("reddit.com".data ++ ('/' :: path.data)) from rfl,
        replaceReddit_scheme ("https://".data) (by decide) ('/' :: path.data)]
      apply string_eq_of_data
      rw [String.data_append]
      rfl
    have hclean2 : cleanedRedditUrl ("https://reddit.com/" ++ path) =
        "https://rxddit.com/" ++ path := by
      rw [cleanedRedditUrl,
        show (("https://reddit.com/" : String) ++ path).data =
          ("https://reddit.com/" : String).data ++ path.data from by
            simp [String.data_append],
        splitQHead_all _ hx,
        show (("https://reddit.com/" : String).data ++ path.data : List Char) =
          "https://".data ++ ("reddit.com".data ++ ('/' :: path.data)) from rfl,
        replaceReddit_scheme ("https://".data) (by decide) ('/' :: path.data)]
      apply string_eq_of_data
      rw [String.data_append]
      rfl
    exact ⟨by rw [redditHandler, if_pos hgate1, hclean], by rw [redditHandler, if_pos hgate2, hclean2]⟩
  · have hx : ∀ c ∈ (("http://reddit.com/" : String).data ++ path.data : List Char),
        (c == '?') = false := by
      intro c hc
      rcases List.mem_append.mp hc with h | h
      · exact (by decide : ∀ c ∈ ("http://reddit.com/" : String).data,
          (c == '?') = false) c h
      · exact hpath c h
    have hclean : cleanedRedditUrl ("http://reddit.com/" ++ path ++ "?" ++ q) =
        "http://rxddit.com/" ++ path := by
      rw [cleanedRedditUrl,
        show (("http://reddit.com/" : String) ++ path ++ "?" ++ q).data =
          (("http://reddit.com/" : String).data ++ path.data) ++ ('?' :: q.data) from by
            simp [String.data_append],
        splitQHead_boundary _ _ hx,
        show (("http://reddit.com/" : String).data ++ path.data : List Char) =
          "http://".data ++ ("reddit.com".data ++ ('/' :: path.data)) from rfl,
        replaceReddit_scheme ("http://".data) (by decide) ('/' :: path.data)]
      apply string_eq_of_data
      rw [String.data_append]
      rfl
    have hclean2 : cleanedRedditUrl ("http://reddit.com/" ++ path) =
        "http://rxddit.com/" ++ path := by
      rw [cleanedRedditUrl,
        show (("http://reddit.com/" : String) ++ path).data =
          ("http://reddit.com/" : String).data ++ path.data from by
            simp [String.data_append],
        splitQHead_all _ hx,
        show (("http://reddit.com/" : String).data ++ path.data : List Char) =
          "http://".data ++ ("reddit.com".data ++ ('/' :: path.data)) from rfl,
        replaceReddit_scheme ("http://".data) (by decide) ('/' :: path.data)]
      apply string_eq_of_data
      rw [String.data_append]
      rfl
    exact ⟨by rw [redditHandler, if_pos hgate1, hclean], by rw [redditHandler, if_pos hgate2, hclean2]⟩
  · have hx : ∀ c ∈ (("https://www.reddit.com/" : String).data ++ path.data : List Char),
        (c == '?') = false := by
      intro c hc
      rcases List.mem_append.mp hc with h | h
      · exact (by decide : ∀ c ∈ ("https://www.reddit.com/" : String).data,
          (c == '?') = false) c h
      · exact hpath c h
    have hclean : cleanedRedditUrl ("https://www.reddit.com/" ++ path ++ "?" ++ q) =
        "https://www.rxddit.com/" ++ path := by
      rw [cleanedRedditUrl,
        show (("https://www.reddit.com/" : String) ++ path ++ "?" ++ q).data =
          (("https://www.reddit.com/" : String).data ++ path.data) ++ ('?' :: q.data) from by
            simp [String.data_append],
        splitQHead_boundary _ _ hx,
        show (("https://www.reddit.com/" : String).data ++ path.data : List Char) =
          "https://www.".data ++ ("reddit.com".data ++ ('/' :: path.data)) from rfl,
        replaceReddit_scheme ("https://www.".data) (by decide) ('/' :: path.data)]
      apply string_eq_of_data
      rw [String.data_append]
      rfl
    have hclean2 : cleanedRedditUrl ("https://www.reddit.com/" ++ path) =
        "https://www.rxddit.com/" ++ path := by
      rw [cleanedRedditUrl,
        show (("https://www.reddit.com/" : String) ++ path).data =
          ("https://www.reddit.com/" : String).data ++ path.data from by
            simp [String.data_append],
        splitQHead_all _ hx,
        show (("https://www.reddit.com/" : String).data ++ path.data : List Char) =
          "https://www.".data ++ ("reddit.com".data ++ ('/' :: path.data)) from rfl,
        replaceReddit_scheme ("https://www.".data) (by decide) ('/' :: path.data)]
      apply string_eq_of_data
      rw [String.data_append]
      rfl
    exact ⟨by rw [redditHandler, if_pos hgate1, hclean], by rw [redditHandler, if_pos hgate2, hclean2]⟩
  · have hx : ∀ c ∈ (("http://www.reddit.com/" : String).data ++ path.data : List Char),
        (c == '?') = false := by
      intro c hc
      rcases List.mem_append.mp hc with h | h
      · exact (by decide : ∀ c ∈ ("http://www.reddit.com/" : String).data,
          (c == '?') = false) c h
      · exact hpath c h
    have hclean : cleanedRedditUrl ("http://www.reddit.com/" ++ path ++ "?" ++ q) =
        "http://www.rxddit.com/" ++ path := by
      rw [cleanedRedditUrl,
        show (("http://www.reddit.com/" : String) ++ path ++ "?" ++ q).data =
          (("http://www.reddit.com/" : String).data ++ path.data) ++ ('?' :: q.data) from by
            simp [String.data_append],
        splitQHead_boundary _ _ hx,
        show (("http://www.reddit.com/" : String).data ++ path.data : List Char) =
          "http://www.".data ++ ("reddit.com".data ++ ('/' :: path.data)) from rfl,
        replaceReddit_scheme ("http://www.".data) (by decide) ('/' :: path.data)]
      apply string_eq_of_data
      rw [String.data_append]
      rfl
    have hclean2 : cleanedRedditUrl ("http://www.reddit.com/" ++ path) =
        "http://www.rxddit.com/" ++ path := by
      rw [cleanedRedditUrl,
        show (("http://www.reddit.com/" : String) ++ path).data =
          ("http://www.reddit.com/" : String).data ++ path.data from by
            simp [String.data_append],
        splitQHead_all _ hx,
        show (("http://www.reddit.com/" : String).data ++ path.data : List Char) =
          "http://www.".data ++ ("reddit.com".data ++ ('/' :: path.data)) from rfl,
        replaceReddit_scheme ("http://www.".data) (by decide) ('/' :: path.data)]
      apply string_eq_of_data
      rw [String.data_append]
      rfl
    exact ⟨by rw [redditHandler, if_pos hgate1, hclean], by rw [redditHandler, if_pos hgate2, hclean2]⟩

/-- Witness for the amended C9: a thread URL with tracking query. -/
theorem C9_witness :
    redditHandler ("https://www.reddit.com/" ++ "r/test/comments/abc123" ++ "?" ++ "utm_source=share") "u" =
      some ("From @" ++ "u" ++ ":\n" ++ ("https://www.rxddit.com/" ++ "r/test/comments/abc123"))
    ∧ redditHandler ("https://www.reddit.com/" ++ "r/test/comments/abc123") "u" =
      some ("From @" ++ "u" ++ ":\n" ++ ("https://www.rxddit.com/" ++ "r/test/comments/abc123")) :=
  C9_reddit_thread_normalized "https://www.reddit.com/" "https://www.rxddit.com/"
    "r/test/comments/abc123" "utm_source=share" "u" (by decide) (by decide)
    (by decide) (by decide)

/-- Counterexample to C9 as stated: the message
`what? https://www.reddit.com/r/test/comments/abc123` contains a thread
URL, but the handler splits the whole message at its first `?` (inside
`what?`) and replaces `reddit.com` in the remainder `what` — the reply
carries `what`, not the matched URL prefix with its host replaced. -/
theorem C9_counterexample :
    redditHandler "what? https://www.reddit.com/r/test/comments/abc123" "u" =
      some ("From @" ++ "u" ++ ":\n" ++ "what")
    ∧ redditHandler "what? https://www.reddit.com/r/test/comments/abc123" "u" ≠
      some ("From @" ++ "u" ++ ":\n" ++ "https://www.rxddit.com/r/test/comments/abc123") :=
  ⟨by decide, by decide⟩

end Casmurbot
